import Mathlib

/-!
Verification of the conversion-job pipeline of the AP-PHYSICS-QuestionBank
backend (`src/backend/app/routers/convert.py` and
`src/backend/app/routers/export.py`), shallowly embedded in Lean.

The in-memory `conversion_results` dict is modelled as a function
`String → Option JobRecord`; the external providers (DaTikZService,
RenderService, PDFService) are parameters of the orchestrating functions,
each modelled as `Except String _` so that a raised Python exception is an
`Except.error` carrying `str(e)`.  A Python `dict.update` on a missing key
(`KeyError`) is modelled by `regUpdate` returning `Except.error`.
-/

namespace AP

/-- `ConversionStatus` enum from `models.py` (lines 16-20). -/
inductive ConversionStatus where
  | pending
  | processing
  | completed
  | failed
deriving DecidableEq, Repr

/-- One entry of the `conversion_results` dict: the four keys written by
`convert.py` (lines 41-46). -/
structure JobRecord where
  status : ConversionStatus
  tikz_code : Option String
  preview_url : Option String
  error_message : Option String
deriving DecidableEq, Repr

/-- The `conversion_results` module-level dict of `convert.py` line 14. -/
abbrev Registry := String → Option JobRecord

/-- `ConvertResponse` model from `models.py` (lines 38-43). -/
structure ConvertResponse where
  id : String
  status : ConversionStatus
  tikz_code : Option String
  preview_url : Option String
  error_message : Option String
deriving DecidableEq, Repr

/-- `PDFExportResponse` model from `models.py` (lines 76-78). -/
structure PDFExportResponse where
  pdf_url : String
  filename : String
deriving DecidableEq, Repr

/-- A FastAPI `HTTPException(status_code, detail)`. -/
structure HttpError where
  status_code : Nat
  detail : String
deriving DecidableEq, Repr

/-- `os.path.join a b` for a relative `b` that is never empty in our uses:
joins with a single separator. -/
def pathJoin (a b : String) : String :=
  if a = "" then b
  else if a.data.getLast? = some '/' then a ++ b
  else a ++ "/" ++ b

/-- Characters after the last slash of a character sequence (the whole
sequence when it has no slash). -/
def basenameChars (cs : List Char) : List Char :=
  (cs.reverse.takeWhile (fun c => c ≠ '/')).reverse

/-- `os.path.basename`, or equivalently the `split("/")[-1]` of
`export.py` line 41: the part after the last slash. -/
def basename (p : String) : String :=
  String.mk (basenameChars p.data)

/-- Outcome of `DaTikZService.convert_image_to_tikz` (`datikz_service.py`):
either `{"success": True, "tikz_code": ...}` or
`{"success": False, "error": ...}` (the `error` key read with
`dict.get`, hence `Option`). -/
inductive ConvertOutcome where
  | ok (tikz_code : String)
  | err (error : Option String)
deriving DecidableEq, Repr

/-- Outcome of `RenderService.render_tikz` (`render_service.py`): either
`{"success": True, "output_path": ...}` or `{"success": False, ...}`
(on failure `convert.py` reads no field beyond `success`). -/
inductive RenderOutcome where
  | ok (output_path : String)
  | err
deriving DecidableEq, Repr

/-- Outcome of `PDFService.create_diagram_pdf` (`pdf_service.py`): either
`{"success": True, "filename": ...}` or `{"success": False, "error": ...}`. -/
inductive PdfOutcome where
  | ok (filename : String)
  | err (error : Option String)
deriving DecidableEq, Repr

/-- The record written by `convert_diagram` lines 41-46 when a job is
created: status PROCESSING and all other fields `None`. -/
def initialRecord : JobRecord :=
  { status := ConversionStatus.processing
    tikz_code := none
    preview_url := none
    error_message := none }

/-- The arguments `convert_diagram` hands to the scheduled background task
(lines 49-56); the fields the claims are about. -/
structure ScheduledTask where
  conversion_id : String
  image_path : String
deriving DecidableEq, Repr

/-- Python `str.startswith`: is `p` an initial segment of the character
sequence of `s` (agrees with Lean's `String.startsWith`). -/
def pyStartsWith (s p : String) : Bool :=
  p.data.isPrefixOf s.data

/-- The file-resolution loop of `convert_diagram` lines 30-34: scan
`os.listdir(settings.upload_dir)` in order and keep the first filename
that `startswith` the requested image id. -/
def findUploadFile (uploads : List String) (image_id : String) : Option String :=
  uploads.find? (fun filename => pyStartsWith filename image_id)

/-- `POST /api/convert` (`convert.py` lines 17-69).  `uploads` is the
directory listing of `settings.upload_dir`; listed files are taken to
exist (the `os.path.exists` re-check on line 36 cannot fail for a name
just returned by `os.listdir` absent external deletion).  Returns the
HTTP result, the registry after the call, and the background task that
was scheduled but NOT yet run (`BackgroundTasks.add_task` runs it only
after the response is returned). -/
def convert_diagram (upload_dir : String) (uploads : List String)
    (reg : Registry) (image_id : String) :
    Except HttpError ConvertResponse × Registry × Option ScheduledTask :=
  match findUploadFile uploads image_id with
  | none =>
      (Except.error { status_code := 404, detail := "Image not found" }, reg, none)
  | some filename =>
      let image_path := pathJoin upload_dir filename
      let conversion_id := image_id
      let reg2 : Registry :=
        fun k => if k = conversion_id then some initialRecord else reg k
      (Except.ok
        { id := conversion_id
          status := ConversionStatus.processing
          tikz_code := none
          preview_url := none
          error_message := none },
       reg2,
       some { conversion_id := conversion_id, image_path := image_path })

/-- `GET /api/convert/{conversion_id}` (`convert.py` lines 72-94): pure
read of the registry. -/
def get_conversion_status (reg : Registry) (conversion_id : String) :
    Except HttpError ConvertResponse :=
  match reg conversion_id with
  | none =>
      Except.error { status_code := 404, detail := "Conversion not found" }
  | some result =>
      Except.ok
        { id := conversion_id
          status := result.status
          tikz_code := result.tikz_code
          preview_url := result.preview_url
          error_message := result.error_message }

/-- One `conversion_results[conversion_id].update({...})` call: either the
FAILED update of lines 119-122 / 146-149 or the COMPLETED update of
lines 136-140. -/
inductive UpdateEvent where
  | failUpdate (error_message : String)
  | completeUpdate (tikz_code : String) (preview_url : Option String)
deriving DecidableEq, Repr

/-- Field-level effect of an `UpdateEvent` on one record: `dict.update`
merges the given keys and leaves the others. -/
def applyUpdate : UpdateEvent → JobRecord → JobRecord
  | UpdateEvent.failUpdate e, r =>
      { r with status := ConversionStatus.failed, error_message := some e }
  | UpdateEvent.completeUpdate t p, r =>
      { r with status := ConversionStatus.completed, tikz_code := some t,
               preview_url := p }

/-- `conversion_results[conversion_id].update({...})`: a `KeyError`
(modelled as `Except.error`) if the id has no record, otherwise the
merged registry. -/
def regUpdate (reg : Registry) (conversion_id : String) (ev : UpdateEvent) :
    Except String Registry :=
  match reg conversion_id with
  | none => Except.error ("KeyError: " ++ conversion_id)
  | some r =>
      Except.ok (fun k => if k = conversion_id then some (applyUpdate ev r) else reg k)

/-- `preview_url` computation of `convert.py` lines 130-133. -/
def previewUrlOf : RenderOutcome → Option String
  | RenderOutcome.ok output_path => some ("/api/outputs/" ++ basename output_path)
  | RenderOutcome.err => none

/-- The `try` body of `process_conversion` (`convert.py` lines 107-142).
`convert` is the awaited `convert_image_to_tikz` call and `render` the
awaited `render_tikz` call; `Except.error` is an exception escaping to
the caller of the body. -/
def process_conversion_body (reg : Registry) (conversion_id : String)
    (convert : Except String ConvertOutcome)
    (render : String → Except String RenderOutcome) :
    Except String Registry :=
  match convert with
  | Except.error e => Except.error e
  | Except.ok (ConvertOutcome.err err) =>
      regUpdate reg conversion_id
        (UpdateEvent.failUpdate (err.getD "Conversion failed"))
  | Except.ok (ConvertOutcome.ok tikz_code) =>
      match render tikz_code with
      | Except.error e => Except.error e
      | Except.ok render_result =>
          regUpdate reg conversion_id
            (UpdateEvent.completeUpdate tikz_code (previewUrlOf render_result))

/-- `process_conversion` (`convert.py` lines 97-149): the `try` body with
the top-level `except Exception` handler of lines 144-149, which turns
any escaped exception into a FAILED update (itself a `dict` access that
could in principle raise `KeyError` again, in which case the exception
leaves the background task). -/
def process_conversion (reg : Registry) (conversion_id : String)
    (convert : Except String ConvertOutcome)
    (render : String → Except String RenderOutcome) :
    Except String Registry :=
  match process_conversion_body reg conversion_id convert render with
  | Except.ok reg2 => Except.ok reg2
  | Except.error e => regUpdate reg conversion_id (UpdateEvent.failUpdate e)

/-- The registry writes the execution body performs, in order, for given
provider outcomes (reading off the update sites of
`process_conversion`): this code performs exactly one write per run. -/
def process_conversion_events (convert : Except String ConvertOutcome)
    (render : String → Except String RenderOutcome) : List UpdateEvent :=
  match convert with
  | Except.error e => [UpdateEvent.failUpdate e]
  | Except.ok (ConvertOutcome.err err) =>
      [UpdateEvent.failUpdate (err.getD "Conversion failed")]
  | Except.ok (ConvertOutcome.ok tikz_code) =>
      match render tikz_code with
      | Except.error e => [UpdateEvent.failUpdate e]
      | Except.ok render_result =>
          [UpdateEvent.completeUpdate tikz_code (previewUrlOf render_result)]

/-- `POST /api/export/pdf` (`export.py` lines 15-73).  `create_diagram_pdf`
is the awaited PDFService call, taking the computed image path and the
markup passed (line 51: `tikz_code if include_code else None`).  The
function only reads `conversion_results`; the registry it returns is the
registry after the call. -/
def export_to_pdf (output_dir : String) (reg : Registry) (diagram_id : String)
    (include_code : Bool)
    (create_diagram_pdf : String → Option String → Except String PdfOutcome) :
    Except HttpError PDFExportResponse × Registry :=
  match reg diagram_id with
  | none =>
      (Except.error { status_code := 404, detail := "Diagram not found" }, reg)
  | some result =>
      if result.status ≠ ConversionStatus.completed then
        (Except.error { status_code := 400, detail := "Diagram conversion not completed" }, reg)
      else
        match result.preview_url with
        | none =>
            (Except.error { status_code := 404, detail := "Preview image not found" }, reg)
        | some u =>
            if u = "" then
              -- Python truthiness: `if result["preview_url"]` is false for "".
              (Except.error { status_code := 404, detail := "Preview image not found" }, reg)
            else
              let image_path := pathJoin output_dir (basename u)
              match create_diagram_pdf image_path
                      (if include_code then result.tikz_code else none) with
              | Except.error e =>
                  (Except.error { status_code := 500, detail := "PDF export failed: " ++ e }, reg)
              | Except.ok (PdfOutcome.err perr) =>
                  (Except.error { status_code := 500, detail := perr.getD "PDF creation failed" }, reg)
              | Except.ok (PdfOutcome.ok filename) =>
                  (Except.ok { pdf_url := "/api/export/download/" ++ filename, filename := filename }, reg)

/-- The operations that touch `conversion_results`, for whole-system
traces: a submit (with the upload directory it sees), a scheduled
execution body running with given provider outcomes, an export, and a
status poll. -/
inductive SystemOp where
  | submit (upload_dir : String) (uploads : List String) (image_id : String)
  | task (conversion_id : String) (convert : Except String ConvertOutcome)
      (render : String → Except String RenderOutcome)
  | exportOp (output_dir : String) (diagram_id : String) (include_code : Bool)
      (create_diagram_pdf : String → Option String → Except String PdfOutcome)
  | poll (conversion_id : String)

/-- Effect of one operation on the registry.  A background task whose
body lets an exception escape (only possible when the id has no record)
leaves the registry as it was. -/
def step (reg : Registry) : SystemOp → Registry
  | SystemOp.submit upload_dir uploads image_id =>
      (convert_diagram upload_dir uploads reg image_id).2.1
  | SystemOp.task conversion_id convert render =>
      match process_conversion reg conversion_id convert render with
      | Except.ok reg2 => reg2
      | Except.error _ => reg
  | SystemOp.exportOp output_dir diagram_id include_code pdf =>
      (export_to_pdf output_dir reg diagram_id include_code pdf).2
  | SystemOp.poll _ => reg

/-- Which job id an operation can write to: submits and tasks write only
their own id; export and poll write nothing. -/
def opWritesId : SystemOp → String → Prop
  | SystemOp.submit _ _ image_id, id => image_id = id
  | SystemOp.task conversion_id _ _, id => conversion_id = id
  | SystemOp.exportOp _ _ _ _, _ => False
  | SystemOp.poll _, _ => False

/-- A successful `regUpdate` rewritten to its pointwise form. -/
lemma regUpdate_ok {reg : Registry} {conversion_id : String} {r : JobRecord}
    (ev : UpdateEvent) (h : reg conversion_id = some r) :
    regUpdate reg conversion_id ev
      = Except.ok (fun k => if k = conversion_id then some (applyUpdate ev r) else reg k) := by
  simp [regUpdate, h]

/-- Inversion: every normal termination of the execution body performed
exactly one update, on its own conversion id, of a record that was
present. -/
lemma process_conversion_ok_inv {reg : Registry} {conversion_id : String}
    {convert : Except String ConvertOutcome}
    {render : String → Except String RenderOutcome} {reg2 : Registry}
    (h : process_conversion reg conversion_id convert render = Except.ok reg2) :
    ∃ ev r, reg conversion_id = some r ∧
      reg2 = fun k => if k = conversion_id then some (applyUpdate ev r) else reg k := by
  cases hc : reg conversion_id with
  | none =>
      exfalso
      rcases convert with e | (t | err)
      · simp [process_conversion, process_conversion_body, regUpdate, hc] at h
      · rcases hr : render t with e | rr <;>
          simp [process_conversion, process_conversion_body, regUpdate, hc, hr] at h
      · simp [process_conversion, process_conversion_body, regUpdate, hc] at h
  | some r =>
      rcases convert with e | (t | err)
      · refine ⟨UpdateEvent.failUpdate e, r, rfl, ?_⟩
        simp [process_conversion, process_conversion_body, regUpdate, hc] at h
        exact h.symm
      · rcases hr : render t with e | rr
        · refine ⟨UpdateEvent.failUpdate e, r, rfl, ?_⟩
          simp [process_conversion, process_conversion_body, regUpdate, hc, hr] at h
          exact h.symm
        · refine ⟨UpdateEvent.completeUpdate t (previewUrlOf rr), r, rfl, ?_⟩
          simp [process_conversion, process_conversion_body, regUpdate, hc, hr] at h
          exact h.symm
      · refine ⟨UpdateEvent.failUpdate (err.getD "Conversion failed"), r, rfl, ?_⟩
        simp [process_conversion, process_conversion_body, regUpdate, hc] at h
        exact h.symm

/-- No update event writes status PENDING. -/
lemma applyUpdate_status_ne_pending (ev : UpdateEvent) (r : JobRecord) :
    (applyUpdate ev r).status ≠ ConversionStatus.pending := by
  cases ev <;> simp [applyUpdate]

/-- Export never writes the registry: the registry it returns is the one
it was given. -/
lemma export_to_pdf_snd (output_dir : String) (reg : Registry) (diagram_id : String)
    (include_code : Bool)
    (create_diagram_pdf : String → Option String → Except String PdfOutcome) :
    (export_to_pdf output_dir reg diagram_id include_code create_diagram_pdf).2 = reg := by
  unfold export_to_pdf
  rcases reg diagram_id with _ | r
  · rfl
  · simp only []
    split
    · rfl
    · rcases r.preview_url with _ | u
      · rfl
      · simp only []
        split
        · rfl
        · rcases create_diagram_pdf (pathJoin output_dir (basename u))
              (if include_code then r.tikz_code else none) with e | pr
          · rfl
          · rcases pr with f | perr <;> rfl

/-- One step never writes a record of another id. -/
lemma step_frame {reg : Registry} {op : SystemOp} {id : String}
    (h : ¬ opWritesId op id) :
    step reg op id = reg id := by
  cases op with
  | submit upload_dir uploads image_id =>
      have hne : id ≠ image_id := fun he => h (by simp [opWritesId, he])
      simp only [step, convert_diagram]
      cases hf : findUploadFile uploads image_id with
      | none => rfl
      | some f => simp [hne]
  | task conversion_id convert render =>
      have hne : id ≠ conversion_id := fun he => h (by simp [opWritesId, he])
      simp only [step]
      cases hp : process_conversion reg conversion_id convert render with
      | error e => rfl
      | ok reg2 =>
          obtain ⟨ev, r, _, h2⟩ := process_conversion_ok_inv hp
          simp [h2, hne]
  | exportOp output_dir diagram_id include_code pdf =>
      simp only [step]
      rw [export_to_pdf_snd]
  | poll conversion_id => rfl

/-- One step preserves the fact that a given id never shows status
PENDING: submits write PROCESSING, execution bodies write terminal
statuses, export and poll write nothing. -/
lemma step_preserves_ne_pending {reg : Registry} {id : String} (op : SystemOp)
    (h : ∀ r, reg id = some r → r.status ≠ ConversionStatus.pending) :
    ∀ r, step reg op id = some r → r.status ≠ ConversionStatus.pending := by
  cases op with
  | submit upload_dir uploads image_id =>
      simp only [step, convert_diagram]
      cases hf : findUploadFile uploads image_id with
      | none => exact h
      | some f =>
          intro r hr
          by_cases he : id = image_id
          · simp [he] at hr
            simp [← hr, initialRecord]
          · simp [he] at hr
            exact h r hr
  | task conversion_id convert render =>
      simp only [step]
      cases hp : process_conversion reg conversion_id convert render with
      | error e => exact h
      | ok reg2 =>
          obtain ⟨ev, r0, _, h2⟩ := process_conversion_ok_inv hp
          intro r hr
          simp only [h2] at hr
          by_cases he : id = conversion_id
          · simp [he] at hr
            rw [← hr]
            exact applyUpdate_status_ne_pending ev r0
          · simp [he] at hr
            exact h r hr
  | exportOp output_dir diagram_id include_code pdf =>
      simp only [step]
      rw [export_to_pdf_snd]
      exact h
  | poll conversion_id => exact h

/-- Iterated steps preserve the no-PENDING fact for a given id. -/
lemma foldl_step_ne_pending (ops : List SystemOp) (reg : Registry) (id : String)
    (h : ∀ r, reg id = some r → r.status ≠ ConversionStatus.pending) :
    ∀ r, (ops.foldl step reg) id = some r → r.status ≠ ConversionStatus.pending := by
  induction ops generalizing reg with
  | nil => exact h
  | cons op ops ih => exact ih _ (step_preserves_ne_pending op h)

/-- Iterated steps that never target `id` leave its record untouched. -/
lemma foldl_step_frame (ops : List SystemOp) (reg : Registry) (id : String)
    (hops : ∀ op ∈ ops, ¬ opWritesId op id) :
    (ops.foldl step reg) id = reg id := by
  induction ops generalizing reg with
  | nil => rfl
  | cons op ops ih =>
      rw [List.foldl_cons, ih _ (fun o ho => hops o (List.mem_cons_of_mem _ ho))]
      exact step_frame (hops op (List.mem_cons_self _ _))

/-- Claim C1: when the ConversionProvider succeeds with markup `M` and the
RenderProvider succeeds with an artifact path, the execution body ends
normally with the job record Completed, `tikz_code = M` and `preview_url`
derived from the artifact path (`/api/outputs/` plus its basename), a
subsequent poll returns exactly that snapshot, and the body's only
registry write is that single Completed update issued after the render
step — the markup is never written to the registry earlier. -/
theorem C1_both_success_completed (reg : Registry) (conversion_id M path : String)
    (r : JobRecord) (render : String → Except String RenderOutcome)
    (hreg : reg conversion_id = some r)
    (hrender : render M = Except.ok (RenderOutcome.ok path)) :
    (∃ reg2,
      process_conversion reg conversion_id (Except.ok (ConvertOutcome.ok M)) render
        = Except.ok reg2 ∧
      reg2 conversion_id = some
        { status := ConversionStatus.completed
          tikz_code := some M
          preview_url := some ("/api/outputs/" ++ basename path)
          error_message := r.error_message } ∧
      get_conversion_status reg2 conversion_id = Except.ok
        { id := conversion_id
          status := ConversionStatus.completed
          tikz_code := some M
          preview_url := some ("/api/outputs/" ++ basename path)
          error_message := r.error_message }) ∧
    process_conversion_events (Except.ok (ConvertOutcome.ok M)) render
      = [UpdateEvent.completeUpdate M (some ("/api/outputs/" ++ basename path))] := by
  refine ⟨⟨fun k => if k = conversion_id then
      some (applyUpdate (UpdateEvent.completeUpdate M
        (previewUrlOf (RenderOutcome.ok path))) r) else reg k, ?_, ?_, ?_⟩, ?_⟩
  · simp [process_conversion, process_conversion_body, hrender, regUpdate, hreg]
  · simp [applyUpdate, previewUrlOf]
  · simp [get_conversion_status, applyUpdate, previewUrlOf]
  · simp [process_conversion_events, hrender, previewUrlOf]

/-- Concrete run of the spec scenario for C1: image "img1", markup "M",
artifact "A.png". -/
theorem C1_witness :
    (∃ reg2,
      process_conversion (fun k => if k = "img1" then some initialRecord else none) "img1"
        (Except.ok (ConvertOutcome.ok "M"))
        (fun _ => Except.ok (RenderOutcome.ok "A.png")) = Except.ok reg2 ∧
      reg2 "img1" = some
        { status := ConversionStatus.completed
          tikz_code := some "M"
          preview_url := some ("/api/outputs/" ++ basename "A.png")
          error_message := initialRecord.error_message } ∧
      get_conversion_status reg2 "img1" = Except.ok
        { id := "img1"
          status := ConversionStatus.completed
          tikz_code := some "M"
          preview_url := some ("/api/outputs/" ++ basename "A.png")
          error_message := initialRecord.error_message }) ∧
    process_conversion_events (Except.ok (ConvertOutcome.ok "M"))
        (fun _ => Except.ok (RenderOutcome.ok "A.png"))
      = [UpdateEvent.completeUpdate "M" (some ("/api/outputs/" ++ basename "A.png"))] :=
  C1_both_success_completed _ "img1" "M" "A.png" initialRecord _ (by decide) rfl

/-- Claim C2: when the ConversionProvider succeeds but the RenderProvider
returns an unsuccessful result, the execution body marks the job
Completed (not Failed) with `tikz_code` set to the markup and
`preview_url` set to None. -/
theorem C2_render_failure_completed (reg : Registry) (conversion_id M : String)
    (r : JobRecord) (render : String → Except String RenderOutcome)
    (hreg : reg conversion_id = some r)
    (hrender : render M = Except.ok RenderOutcome.err) :
    ∃ reg2,
      process_conversion reg conversion_id (Except.ok (ConvertOutcome.ok M)) render
        = Except.ok reg2 ∧
      reg2 conversion_id = some
        { status := ConversionStatus.completed
          tikz_code := some M
          preview_url := none
          error_message := r.error_message } := by
  refine ⟨fun k => if k = conversion_id then
      some (applyUpdate (UpdateEvent.completeUpdate M
        (previewUrlOf RenderOutcome.err)) r) else reg k, ?_, ?_⟩
  · simp [process_conversion, process_conversion_body, hrender, regUpdate, hreg]
  · simp [applyUpdate, previewUrlOf]

/-- Concrete run for C2: conversion succeeds with markup "M", render
reports failure. -/
theorem C2_witness :
    ∃ reg2,
      process_conversion (fun k => if k = "img1" then some initialRecord else none) "img1"
        (Except.ok (ConvertOutcome.ok "M"))
        (fun _ => Except.ok RenderOutcome.err) = Except.ok reg2 ∧
      reg2 "img1" = some
        { status := ConversionStatus.completed
          tikz_code := some "M"
          preview_url := none
          error_message := initialRecord.error_message } :=
  C2_render_failure_completed _ "img1" "M" initialRecord _ (by decide) rfl

/-- Claim C3: when the ConversionProvider returns an unsuccessful result
carrying error message `emsg`, the execution body marks the job Failed
with that message, never invokes the RenderProvider (the outcome is
independent of the render function), and leaves `tikz_code` and
`preview_url` at None for a freshly created record. -/
theorem C3_convert_failure_failed (reg : Registry) (conversion_id emsg : String)
    (r : JobRecord)
    (hreg : reg conversion_id = some r)
    (ht : r.tikz_code = none) (hp : r.preview_url = none) :
    ∀ render render2 : String → Except String RenderOutcome,
      process_conversion reg conversion_id
          (Except.ok (ConvertOutcome.err (some emsg))) render
        = process_conversion reg conversion_id
            (Except.ok (ConvertOutcome.err (some emsg))) render2
      ∧
      ∃ reg2,
        process_conversion reg conversion_id
            (Except.ok (ConvertOutcome.err (some emsg))) render
          = Except.ok reg2 ∧
        reg2 conversion_id = some
          { status := ConversionStatus.failed
            tikz_code := none
            preview_url := none
            error_message := some emsg } := by
  intro render render2
  constructor
  · rfl
  · refine ⟨fun k => if k = conversion_id then
        some (applyUpdate (UpdateEvent.failUpdate emsg) r) else reg k, ?_, ?_⟩
    · simp [process_conversion, process_conversion_body, regUpdate, hreg]
    · simp [applyUpdate, ht, hp]

/-- Concrete run of the spec scenario for C3: image "img2", provider
error "bad scan". -/
theorem C3_witness :
    process_conversion (fun k => if k = "img2" then some initialRecord else none) "img2"
        (Except.ok (ConvertOutcome.err (some "bad scan")))
        (fun _ => Except.ok (RenderOutcome.ok "A.png"))
      = process_conversion (fun k => if k = "img2" then some initialRecord else none) "img2"
          (Except.ok (ConvertOutcome.err (some "bad scan")))
          (fun _ => Except.ok RenderOutcome.err)
    ∧
    ∃ reg2,
      process_conversion (fun k => if k = "img2" then some initialRecord else none) "img2"
          (Except.ok (ConvertOutcome.err (some "bad scan")))
          (fun _ => Except.ok (RenderOutcome.ok "A.png"))
        = Except.ok reg2 ∧
      reg2 "img2" = some
        { status := ConversionStatus.failed
          tikz_code := none
          preview_url := none
          error_message := some "bad scan" } :=
  C3_convert_failure_failed _ "img2" "bad scan" initialRecord (by decide) rfl rfl
    (fun _ => Except.ok (RenderOutcome.ok "A.png")) (fun _ => Except.ok RenderOutcome.err)

/-- Claim C4: when the image id resolves, the synchronous request creates
the registry record with status PROCESSING, returns the job id with
status PROCESSING together with the still-unexecuted background task,
and no poll after any further sequence of operations ever returns status
PENDING for that id. -/
theorem C4_submit_processing (upload_dir : String) (uploads : List String)
    (reg : Registry) (image_id : String)
    (himg : (findUploadFile uploads image_id).isSome = true) :
    ∃ resp reg2 tk,
      convert_diagram upload_dir uploads reg image_id
        = (Except.ok resp, reg2, some tk) ∧
      resp.id = image_id ∧
      resp.status = ConversionStatus.processing ∧
      reg2 image_id = some initialRecord ∧
      initialRecord.status = ConversionStatus.processing ∧
      ∀ ops : List SystemOp, ∀ resp2,
        get_conversion_status (ops.foldl step reg2) image_id = Except.ok resp2 →
        resp2.status ≠ ConversionStatus.pending := by
  obtain ⟨f, hf⟩ := Option.isSome_iff_exists.mp himg
  refine ⟨{ id := image_id, status := ConversionStatus.processing, tikz_code := none,
            preview_url := none, error_message := none },
          fun k => if k = image_id then some initialRecord else reg k,
          { conversion_id := image_id, image_path := pathJoin upload_dir f },
          ?_, rfl, rfl, ?_, rfl, ?_⟩
  · simp [convert_diagram, hf]
  · simp
  · intro ops resp2 hpoll
    have hbase : ∀ r, (fun k => if k = image_id then some initialRecord else reg k) image_id
        = some r → r.status ≠ ConversionStatus.pending := by
      intro r hr
      simp at hr
      simp [← hr, initialRecord]
    have hnp := foldl_step_ne_pending ops
        (fun k => if k = image_id then some initialRecord else reg k) image_id hbase
    cases hg : (ops.foldl step (fun k => if k = image_id then some initialRecord else reg k))
        image_id with
    | none => simp [get_conversion_status, hg] at hpoll
    | some r =>
        simp [get_conversion_status, hg] at hpoll
        rw [← hpoll]
        simpa using hnp r hg

/-- Concrete run for C4: submitting "img1" against a directory holding
"img1.png". -/
theorem C4_witness :
    ∃ resp reg2 tk,
      convert_diagram "uploads" ["img1.png"] (fun _ => none) "img1"
        = (Except.ok resp, reg2, some tk) ∧
      resp.id = "img1" ∧
      resp.status = ConversionStatus.processing ∧
      reg2 "img1" = some initialRecord ∧
      initialRecord.status = ConversionStatus.processing ∧
      ∀ ops : List SystemOp, ∀ resp2,
        get_conversion_status (ops.foldl step reg2) "img1" = Except.ok resp2 →
        resp2.status ≠ ConversionStatus.pending :=
  C4_submit_processing "uploads" ["img1.png"] (fun _ => none) "img1" (by decide)

/-- Claim C5 fails on the code: a job of id "img1" whose record is
terminal (Completed) has its status changed back to PROCESSING by a
later submit-conversion operation for the same image id — the second
submit overwrites the record (`convert.py` line 41), so terminal
statuses are NOT preserved by all later operations. -/
theorem C5_counterexample :
    step (fun k => if k = "img1" then
        some { status := ConversionStatus.completed, tikz_code := some "M",
               preview_url := some "/api/outputs/A.png", error_message := none }
      else none) (SystemOp.submit "uploads" ["img1.png"] "img1") "img1"
      = some initialRecord ∧
    initialRecord.status = ConversionStatus.processing ∧
    (fun k => if k = "img1" then
        some { status := ConversionStatus.completed, tikz_code := some "M",
               preview_url := some "/api/outputs/A.png", error_message := none }
      else (none : Option JobRecord)) "img1"
      = some { status := ConversionStatus.completed, tikz_code := some "M",
               preview_url := some "/api/outputs/A.png", error_message := none } := by
  refine ⟨?_, rfl, ?_⟩ <;> decide

/-- Claim C5 amended: once a job's record is terminal (Completed or
Failed), every later operation that is neither a submit-conversion for
that same id nor an execution-body run for that same id leaves the
record unchanged, so all such polls return the same terminal snapshot;
only a re-submit or another execution body targeting the id can change
it. -/
theorem C5_amended_terminal_frame (reg : Registry) (id : String) (r : JobRecord)
    (ops : List SystemOp)
    (hreg : reg id = some r)
    (hterm : r.status = ConversionStatus.completed ∨ r.status = ConversionStatus.failed)
    (hops : ∀ op ∈ ops, ¬ opWritesId op id) :
    (ops.foldl step reg) id = some r ∧
    get_conversion_status (ops.foldl step reg) id = Except.ok
      { id := id, status := r.status, tikz_code := r.tikz_code,
        preview_url := r.preview_url, error_message := r.error_message } := by
  have hfold : (ops.foldl step reg) id = some r := by
    rw [foldl_step_frame ops reg id hops]
    exact hreg
  exact ⟨hfold, by simp [get_conversion_status, hfold]⟩

/-- Concrete run for the amended C5: a Failed record survives a poll, a
submit for a different id and an export. -/
theorem C5_amended_witness :
    ((([SystemOp.poll "other", SystemOp.submit "uploads" ["other.png"] "other",
        SystemOp.exportOp "outputs" "img1" false
          (fun _ _ => Except.ok (PdfOutcome.ok "d.pdf"))] : List SystemOp).foldl step
      (fun k => if k = "img1" then
          some { status := ConversionStatus.failed, tikz_code := none,
                 preview_url := none, error_message := some "bad scan" }
        else none)) "img1"
      = some { status := ConversionStatus.failed, tikz_code := none,
               preview_url := none, error_message := some "bad scan" }) ∧
    get_conversion_status
      (([SystemOp.poll "other", SystemOp.submit "uploads" ["other.png"] "other",
        SystemOp.exportOp "outputs" "img1" false
          (fun _ _ => Except.ok (PdfOutcome.ok "d.pdf"))] : List SystemOp).foldl step
      (fun k => if k = "img1" then
          some { status := ConversionStatus.failed, tikz_code := none,
                 preview_url := none, error_message := some "bad scan" }
        else none)) "img1" = Except.ok
      { id := "img1", status := ConversionStatus.failed, tikz_code := none,
        preview_url := none, error_message := some "bad scan" } :=
  C5_amended_terminal_frame
    (fun k => if k = "img1" then
        some { status := ConversionStatus.failed, tikz_code := none,
               preview_url := none, error_message := some "bad scan" }
      else none) "img1"
    { status := ConversionStatus.failed, tikz_code := none,
      preview_url := none, error_message := some "bad scan" }
    [SystemOp.poll "other", SystemOp.submit "uploads" ["other.png"] "other",
     SystemOp.exportOp "outputs" "img1" false
       (fun _ _ => Except.ok (PdfOutcome.ok "d.pdf"))]
    (by decide) (Or.inr rfl)
    (by intro op hop
        simp only [List.mem_cons, List.not_mem_nil, or_false] at hop
        rcases hop with h1 | h1 | h1 <;> subst h1 <;> simp [opWritesId])

/-- Claim C6: export fails with 404 "Diagram not found" when the job id
has no record, with 400 when the record's status is not Completed, with
404 "Preview image not found" when Completed but `preview_url` is
absent, and only in the remaining case invokes the PDF provider on the
path computed from the preview basename, its result determining the
response. -/
theorem C6_export_guards (output_dir : String) (reg : Registry) (diagram_id : String)
    (include_code : Bool)
    (pdf : String → Option String → Except String PdfOutcome) :
    (reg diagram_id = none →
      export_to_pdf output_dir reg diagram_id include_code pdf
        = (Except.error { status_code := 404, detail := "Diagram not found" }, reg)) ∧
    (∀ r, reg diagram_id = some r → r.status ≠ ConversionStatus.completed →
      export_to_pdf output_dir reg diagram_id include_code pdf
        = (Except.error
             { status_code := 400, detail := "Diagram conversion not completed" }, reg)) ∧
    (∀ r, reg diagram_id = some r → r.status = ConversionStatus.completed →
      r.preview_url = none →
      export_to_pdf output_dir reg diagram_id include_code pdf
        = (Except.error { status_code := 404, detail := "Preview image not found" }, reg)) ∧
    (∀ r u, reg diagram_id = some r → r.status = ConversionStatus.completed →
      r.preview_url = some u → ¬ u = "" →
      export_to_pdf output_dir reg diagram_id include_code pdf
        = (match pdf (pathJoin output_dir (basename u))
                 (if include_code then r.tikz_code else none) with
           | Except.error e =>
               (Except.error
                 { status_code := 500, detail := "PDF export failed: " ++ e }, reg)
           | Except.ok (PdfOutcome.err perr) =>
               (Except.error
                 { status_code := 500, detail := perr.getD "PDF creation failed" }, reg)
           | Except.ok (PdfOutcome.ok filename) =>
               (Except.ok { pdf_url := "/api/export/download/" ++ filename,
                            filename := filename }, reg))) := by
  refine ⟨?_, ?_, ?_, ?_⟩
  · intro h; simp [export_to_pdf, h]
  · intro r h hs; simp [export_to_pdf, h, hs]
  · intro r h hs hp; simp [export_to_pdf, h, hs, hp]
  · intro r u h hs hp hu; simp [export_to_pdf, h, hs, hp, hu]

/-- Concrete run for C6: export of a Completed job with a preview invokes
the provider and succeeds. -/
theorem C6_witness :
    (fun k => if k = "done" then
        some { status := ConversionStatus.completed, tikz_code := some "M",
               preview_url := some "/api/outputs/A.png", error_message := none }
      else (none : Option JobRecord)) "done" = some
        { status := ConversionStatus.completed, tikz_code := some "M",
          preview_url := some "/api/outputs/A.png", error_message := none } ∧
    export_to_pdf "outputs"
      (fun k => if k = "done" then
          some { status := ConversionStatus.completed, tikz_code := some "M",
                 preview_url := some "/api/outputs/A.png", error_message := none }
        else none) "done" false
      (fun _ _ => Except.ok (PdfOutcome.ok "diagram_1.pdf"))
      = (Except.ok { pdf_url := "/api/export/download/diagram_1.pdf",
                     filename := "diagram_1.pdf" },
         fun k => if k = "done" then
            some { status := ConversionStatus.completed, tikz_code := some "M",
                   preview_url := some "/api/outputs/A.png", error_message := none }
          else none) := by
  refine ⟨by decide, ?_⟩
  have h := (C6_export_guards "outputs"
      (fun k => if k = "done" then
          some { status := ConversionStatus.completed, tikz_code := some "M",
                 preview_url := some "/api/outputs/A.png", error_message := none }
        else none) "done" false
      (fun _ _ => Except.ok (PdfOutcome.ok "diagram_1.pdf"))).2.2.2
      { status := ConversionStatus.completed, tikz_code := some "M",
        preview_url := some "/api/outputs/A.png", error_message := none }
      "/api/outputs/A.png" (by decide) rfl rfl (by decide)
  simpa using h

/-- Claim C7: when no stored filename starts with the requested image id,
the submit fails synchronously with 404 "Image not found", schedules no
task, and returns the registry exactly as it was — no record of any id
is created or modified. -/
theorem C7_notfound_unchanged (upload_dir : String) (uploads : List String)
    (reg : Registry) (image_id : String)
    (h : findUploadFile uploads image_id = none) :
    convert_diagram upload_dir uploads reg image_id
      = (Except.error { status_code := 404, detail := "Image not found" }, reg, none) := by
  simp [convert_diagram, h]

/-- Concrete run for C7: id "zzz" matches none of the stored files. -/
theorem C7_witness :
    convert_diagram "uploads" ["a.png", "b.png"] (fun _ => none) "zzz"
      = (Except.error { status_code := 404, detail := "Image not found" },
         (fun _ => none : Registry), none) :=
  C7_notfound_unchanged "uploads" ["a.png", "b.png"] (fun _ => none) "zzz" (by decide)

/-- Claim C8: given the job record exists (always the case, since the
submit creates it before scheduling the body), the execution body never
lets an exception escape — it always terminates normally — and an
exception raised by the ConversionProvider call or by the RenderProvider
call is converted into a Failed update carrying the exception's
message. -/
theorem C8_exceptions_caught (reg : Registry) (conversion_id : String) (r : JobRecord)
    (convert : Except String ConvertOutcome)
    (render : String → Except String RenderOutcome)
    (hreg : reg conversion_id = some r) :
    (∃ reg2, process_conversion reg conversion_id convert render = Except.ok reg2) ∧
    (∀ e, convert = Except.error e →
      ∃ reg2, process_conversion reg conversion_id convert render = Except.ok reg2 ∧
        reg2 conversion_id = some
          { r with status := ConversionStatus.failed, error_message := some e }) ∧
    (∀ t e, convert = Except.ok (ConvertOutcome.ok t) → render t = Except.error e →
      ∃ reg2, process_conversion reg conversion_id convert render = Except.ok reg2 ∧
        reg2 conversion_id = some
          { r with status := ConversionStatus.failed, error_message := some e }) := by
  refine ⟨?_, ?_, ?_⟩
  · rcases convert with e | (t | err)
    · exact ⟨fun k => if k = conversion_id then
          some (applyUpdate (UpdateEvent.failUpdate e) r) else reg k,
        by simp [process_conversion, process_conversion_body, regUpdate, hreg]⟩
    · rcases hr : render t with e | rr
      · exact ⟨fun k => if k = conversion_id then
            some (applyUpdate (UpdateEvent.failUpdate e) r) else reg k,
          by simp [process_conversion, process_conversion_body, regUpdate, hreg, hr]⟩
      · exact ⟨fun k => if k = conversion_id then
            some (applyUpdate (UpdateEvent.completeUpdate t (previewUrlOf rr)) r) else reg k,
          by simp [process_conversion, process_conversion_body, regUpdate, hreg, hr]⟩
    · exact ⟨fun k => if k = conversion_id then
          some (applyUpdate (UpdateEvent.failUpdate (err.getD "Conversion failed")) r)
          else reg k,
        by simp [process_conversion, process_conversion_body, regUpdate, hreg]⟩
  · intro e he
    subst he
    refine ⟨fun k => if k = conversion_id then
        some (applyUpdate (UpdateEvent.failUpdate e) r) else reg k, ?_, ?_⟩
    · simp [process_conversion, process_conversion_body, regUpdate, hreg]
    · simp [applyUpdate]
  · intro t e hc hr
    subst hc
    refine ⟨fun k => if k = conversion_id then
        some (applyUpdate (UpdateEvent.failUpdate e) r) else reg k, ?_, ?_⟩
    · simp [process_conversion, process_conversion_body, regUpdate, hreg, hr]
    · simp [applyUpdate]

/-- Concrete run for C8: the conversion call raises "boom"; the body ends
normally with a Failed record carrying "boom". -/
theorem C8_witness :
    (∃ reg2, process_conversion (fun k => if k = "img1" then some initialRecord else none)
        "img1" (Except.error "boom") (fun _ => Except.ok RenderOutcome.err)
        = Except.ok reg2) ∧
    (∀ e, (Except.error "boom" : Except String ConvertOutcome) = Except.error e →
      ∃ reg2, process_conversion (fun k => if k = "img1" then some initialRecord else none)
          "img1" (Except.error "boom") (fun _ => Except.ok RenderOutcome.err)
          = Except.ok reg2 ∧
        reg2 "img1" = some
          { initialRecord with status := ConversionStatus.failed,
                               error_message := some e }) ∧
    (∀ t e, (Except.error "boom" : Except String ConvertOutcome)
          = Except.ok (ConvertOutcome.ok t) →
      (fun _ => Except.ok RenderOutcome.err : String → Except String RenderOutcome) t
          = Except.error e →
      ∃ reg2, process_conversion (fun k => if k = "img1" then some initialRecord else none)
          "img1" (Except.error "boom") (fun _ => Except.ok RenderOutcome.err)
          = Except.ok reg2 ∧
        reg2 "img1" = some
          { initialRecord with status := ConversionStatus.failed,
                               error_message := some e }) :=
  C8_exceptions_caught (fun k => if k = "img1" then some initialRecord else none)
    "img1" initialRecord (Except.error "boom") (fun _ => Except.ok RenderOutcome.err)
    (by decide)

/-- Claim C9: image resolution is startswith-based — the submit succeeds
exactly when some stored filename starts with the requested id; the file
used is the first such filename in listing order; every string starts
with the empty string, so an empty id resolves whenever the directory is
nonempty. -/
theorem C9_resolution_by_startswith (upload_dir : String) (uploads : List String)
    (reg : Registry) (image_id : String) :
    ((∃ f ∈ uploads, pyStartsWith f image_id = true) ↔
      ∃ resp rest, convert_diagram upload_dir uploads reg image_id
        = (Except.ok resp, rest)) ∧
    (∀ f, findUploadFile uploads image_id = some f →
      ∃ l1 l2, uploads = l1 ++ f :: l2 ∧
        pyStartsWith f image_id = true ∧
        (∀ g ∈ l1, pyStartsWith g image_id = false) ∧
        (convert_diagram upload_dir uploads reg image_id).2.2
          = some { conversion_id := image_id, image_path := pathJoin upload_dir f }) ∧
    (∀ s : String, pyStartsWith s "" = true) ∧
    (uploads ≠ [] →
      ∃ resp rest, convert_diagram upload_dir uploads reg "" = (Except.ok resp, rest)) := by
  have hiff : ∀ iid : String, (∃ f ∈ uploads, pyStartsWith f iid = true) ↔
      ∃ resp rest, convert_diagram upload_dir uploads reg iid = (Except.ok resp, rest) := by
    intro iid
    constructor
    · intro hex
      have hs : (findUploadFile uploads iid).isSome = true := List.find?_isSome.mpr hex
      obtain ⟨f, hf⟩ := Option.isSome_iff_exists.mp hs
      exact ⟨{ id := iid, status := ConversionStatus.processing, tikz_code := none,
               preview_url := none, error_message := none },
             (fun k => if k = iid then some initialRecord else reg k,
              some { conversion_id := iid, image_path := pathJoin upload_dir f }),
             by simp [convert_diagram, hf]⟩
    · rintro ⟨resp, rest, heq⟩
      cases hf : findUploadFile uploads iid with
      | none => simp [convert_diagram, hf] at heq
      | some f =>
          refine ⟨f, List.mem_of_find?_eq_some hf, ?_⟩
          simpa using List.find?_some hf
  refine ⟨hiff image_id, ?_, ?_, ?_⟩
  · intro f hf
    obtain ⟨hp, as, bs, heq, hall⟩ := List.find?_eq_some.mp hf
    refine ⟨as, bs, heq, by simpa using hp, ?_, ?_⟩
    · intro g hg
      simpa using hall g hg
    · simp [convert_diagram, hf]
  · intro s
    simp [pyStartsWith]
  · intro hne
    obtain ⟨f, hf⟩ := List.exists_mem_of_ne_nil uploads hne
    exact (hiff "").mp ⟨f, hf, by simp [pyStartsWith]⟩

/-- Concrete run for C9: id "img1" skips "notes.txt" and resolves to the
first matching file "img1.png". -/
theorem C9_witness :
    ∃ l1 l2, ["notes.txt", "img1.png"] = l1 ++ "img1.png" :: l2 ∧
      pyStartsWith "img1.png" "img1" = true ∧
      (∀ g ∈ l1, pyStartsWith g "img1" = false) ∧
      (convert_diagram "uploads" ["notes.txt", "img1.png"] (fun _ => none) "img1").2.2
        = some { conversion_id := "img1", image_path := pathJoin "uploads" "img1.png" } :=
  (C9_resolution_by_startswith "uploads" ["notes.txt", "img1.png"]
    (fun _ => none) "img1").2.1 "img1.png" (by decide)

/-- Claim C10: export never mutates the registry — for every job id,
provider behaviour and outcome, the registry returned by the export
operation is exactly (pointwise) the registry it was given. -/
theorem C10_export_pure (output_dir : String) (reg : Registry) (diagram_id : String)
    (include_code : Bool)
    (create_diagram_pdf : String → Option String → Except String PdfOutcome) :
    (export_to_pdf output_dir reg diagram_id include_code create_diagram_pdf).2 = reg ∧
    ∀ k, (export_to_pdf output_dir reg diagram_id include_code create_diagram_pdf).2 k
        = reg k := by
  have h := export_to_pdf_snd output_dir reg diagram_id include_code create_diagram_pdf
  exact ⟨h, fun k => by rw [h]⟩

end AP
